import Mathlib

/-!
Verification of the Snodeify request-construction and authorization layers.

The JavaScript source is shallowly embedded: JS objects used as flat
parameter maps become association lists over a value type `JVal`, the
builder accumulators become records with `Option` fields (`none` models a
field never set, i.e. JS `undefined`), and the `qs` query-string library
is modelled by an executable percent-encoder and stringifier following its
documented default behaviour (RFC 3986 encoding, `skipNulls` option).
-/

namespace Snodeify

/-- JavaScript values that appear in the query/body parameter maps of this
library: strings, numbers, booleans, `null`, and arrays of strings
(multi-valued parameters are lists of id strings in the source). -/
inductive JVal where
  | str (s : String)
  | num (n : Int)
  | bool (b : Bool)
  | null
  | arr (xs : List String)
  deriving DecidableEq

/-- A flat JS object used as a parameter map: ordered key/value pairs. -/
abbrev JMap := List (String × JVal)

/-- The characters JavaScript `String.prototype.trim` removes: ASCII
whitespace, NBSP, the BOM and the Unicode line/paragraph separators. -/
def jsIsWhitespaceChar (c : Char) : Bool :=
  c == ' ' || c == '\t' || c == '\n' || c == '\r' || c == '\x0b' || c == '\x0c' ||
    c == '\u00A0' || c == '\u2028' || c == '\u2029' || c == '\uFEFF'

/-- JavaScript `String.prototype.trim`: strip leading and trailing
whitespace. -/
def jsTrim (s : String) : String :=
  ⟨((s.data.dropWhile jsIsWhitespaceChar).reverse.dropWhile jsIsWhitespaceChar).reverse⟩

/-- The test a value must fail to survive `filterEmptyString`: it is a
string that is empty or all-whitespace (`!value || value.trim().length <= 0`
in the source; for strings, `!value` means the empty string, which also has
empty trim). -/
def isEmptyStringVal : JVal → Bool
  | .str s => (jsTrim s).length == 0
  | _ => false

/-- `filterEmptyString` from `Request.js`: keep every entry whose value is
not an empty or whitespace-only string; non-string values always pass. -/
def filterEmptyString (m : JMap) : JMap :=
  m.filter (fun kv => !(isEmptyStringVal kv.2))

/-- Uppercase hexadecimal digit, as used by percent-encoding. -/
def hexDigitChar (n : Nat) : Char :=
  if n < 10 then Char.ofNat (48 + n) else Char.ofNat (55 + n)

/-- UTF-8 bytes of a Unicode code point. -/
def utf8Bytes (n : Nat) : List Nat :=
  if n < 128 then [n]
  else if n < 2048 then [192 + n / 64, 128 + n % 64]
  else if n < 65536 then [224 + n / 4096, 128 + (n / 64) % 64, 128 + n % 64]
  else [240 + n / 262144, 128 + (n / 4096) % 64, 128 + (n / 64) % 64, 128 + n % 64]

/-- `%XX` escape of one byte. -/
def encodeByte (b : Nat) : String :=
  String.mk ['%', hexDigitChar (b / 16), hexDigitChar (b % 16)]

/-- The characters `qs` leaves unencoded in its default (RFC 3986) format:
ASCII alphanumerics and `-`, `.`, `_`, `~`. -/
def isUnreservedChar (c : Char) : Bool :=
  c.isAlphanum || c == '-' || c == '.' || c == '_' || c == '~'

/-- Percent-encode one character (UTF-8 bytes, uppercase hex). -/
def percentEncodeChar (c : Char) : String :=
  if isUnreservedChar c then String.singleton c
  else String.join ((utf8Bytes c.toNat).map encodeByte)

/-- Percent-encode a string as `qs` does for keys and values. -/
def percentEncode (s : String) : String :=
  String.join (s.data.map percentEncodeChar)

/-- String conversion `qs` applies to a scalar value before encoding it. -/
def scalarToString : JVal → String
  | .str s => s
  | .num n => toString n
  | .bool b => if b then "true" else "false"
  | .null => ""
  | .arr _ => ""

/-- The `key=value` fragments one map entry contributes to a `qs` query
string. A `null` value yields `key=` by default and nothing under
`skipNulls`; an array value yields one indexed fragment per element
(`ids%5B0%5D=...`); scalars yield a single encoded pair. -/
def qsPairs (skipNulls : Bool) (k : String) (v : JVal) : List String :=
  match v with
  | .null => if skipNulls then [] else [percentEncode k ++ "="]
  | .arr xs =>
      xs.enum.map (fun ix =>
        percentEncode (k ++ "[" ++ toString ix.1 ++ "]") ++ "=" ++ percentEncode ix.2)
  | v => [percentEncode k ++ "=" ++ percentEncode (scalarToString v)]

/-- All fragments of a map, in entry order. -/
def qsParts (skipNulls : Bool) (m : JMap) : List String :=
  m.flatMap (fun kv => qsPairs skipNulls kv.1 kv.2)

/-- `qs.stringify` on a flat map: the fragments joined with `&`. -/
def qsStringify (skipNulls : Bool) (m : JMap) : String :=
  String.intercalate "&" (qsParts skipNulls m)

/-- JS string conversion of a possibly-unset (`undefined`) string field, as
performed by string concatenation and header/`URLSearchParams` coercion. -/
def jsString : Option String → String
  | some s => s
  | none => "undefined"

/-- The fluent accumulator of `Request.js`: `new Builder()` starts with
every field unset; each `with*` step assigns one own property. -/
structure Builder where
  baseURI : Option String := none
  path : Option String := none
  method : Option String := none
  contentType : Option String := none
  authorization : Option String := none
  queryParameters : Option JMap := none
  bodyParameters : Option JMap := none
  deriving DecidableEq

/-- `builder()` from `Request.js`: returns a fresh accumulator. -/
def builder : Builder := {}

def Builder.withContentType (b : Builder) (contentType : String) : Builder :=
  { b with contentType := some contentType }

def Builder.withAccessToken (b : Builder) (accessToken : String) : Builder :=
  { b with authorization := some accessToken }

def Builder.withURI (b : Builder) (baseURI : String) : Builder :=
  { b with baseURI := some baseURI }

def Builder.withPath (b : Builder) (path : String) : Builder :=
  { b with path := some path }

def Builder.withMethod (b : Builder) (method : String) : Builder :=
  { b with method := some method }

def Builder.withBodyParameters (b : Builder) (parameters : JMap) : Builder :=
  { b with bodyParameters := some parameters }

def Builder.withQueryParameters (b : Builder) (parameters : JMap) : Builder :=
  { b with queryParameters := some parameters }

namespace Request

/-- `Request.prototype.getFullURI`: when `queryParameters` is set, append
`?` followed by the `skipNulls` encoding of the sanitized map; otherwise
append nothing. -/
def getFullURI (b : Builder) : String :=
  let params :=
    match b.queryParameters with
    | some qp => "?" ++ qsStringify true (filterEmptyString qp)
    | none => ""
  jsString b.baseURI ++ jsString b.path ++ params

/-- `Request.prototype.getAuthorizationURI`: the full URI followed by
`qs.stringify(this.builder.queryParameters)` (default options; stringify of
an unset map is the empty string). -/
def getAuthorizationURI (b : Builder) : String :=
  getFullURI b ++
    (match b.queryParameters with
     | some qp => qsStringify false qp
     | none => "")

end Request

/-- The single HTTP call `Request.prototype.fetch` hands to the `fetch`
transport: URL, method, the two headers, and the optional body object. -/
structure FetchCall where
  url : String
  method : String
  authorization : String
  contentType : String
  body : Option JMap
  deriving DecidableEq

/-- `Request.prototype.fetch`: method and headers come from the builder
fields (unset fields coerce to the string `undefined`); when
`bodyParameters` is set (and is a plain object, as at every call site), the
sanitized map itself is placed in `options.body`. -/
def Request.fetchCall (b : Builder) : FetchCall :=
  { url := Request.getFullURI b
    method := jsString b.method
    authorization := jsString b.authorization
    contentType := jsString b.contentType
    body := b.bodyParameters.map filterEmptyString }

/-- Modelled from the WHATWG fetch / WebIDL behaviour the source relies on:
a plain object is not a `BodyInit` variant, so passing it as `options.body`
string-converts it, and the bytes actually sent are `[object Object]`. -/
def wireBody : Option JMap → Option String
  | none => none
  | some _ => some "[object Object]"

/-! ## The token-exchange request module (`src/lib/requests/Request.js`)

An earlier snapshot of the request layer, still present in the repository
and exercised by its test suite: its `Request` fixes the body fields
`code`, `grant_type`, `redirect_uri` from the builder, and `build` selects
the options by `switch` on the method. -/

namespace TokenRequest

/-- The builder of `src/lib/requests/Request.js`: one own property per
`with*` step, all initially unset. -/
structure TBuilder where
  contentType : Option String := none
  authorization : Option String := none
  baseURI : Option String := none
  path : Option String := none
  method : Option String := none
  code : Option String := none
  grantType : Option String := none
  redirectURI : Option String := none
  queryParameters : Option JMap := none
  deriving DecidableEq

/-- `builder()` of `src/lib/requests/Request.js`. -/
def tbuilder : TBuilder := {}

def TBuilder.withContentType (b : TBuilder) (contentType : String) : TBuilder :=
  { b with contentType := some contentType }

def TBuilder.withAccessToken (b : TBuilder) (accessToken : String) : TBuilder :=
  { b with authorization := some accessToken }

def TBuilder.withURI (b : TBuilder) (baseURI : String) : TBuilder :=
  { b with baseURI := some baseURI }

def TBuilder.withPath (b : TBuilder) (path : String) : TBuilder :=
  { b with path := some path }

def TBuilder.withMethod (b : TBuilder) (method : String) : TBuilder :=
  { b with method := some method }

def TBuilder.withCode (b : TBuilder) (code : String) : TBuilder :=
  { b with code := some code }

def TBuilder.withGrantType (b : TBuilder) (grantType : String) : TBuilder :=
  { b with grantType := some grantType }

def TBuilder.withRedirectURI (b : TBuilder) (redirectURI : String) : TBuilder :=
  { b with redirectURI := some redirectURI }

def TBuilder.withQueryParameters (b : TBuilder) (parameters : JMap) : TBuilder :=
  { b with queryParameters := some parameters }

/-- The `options` object `build` stores: method, the two headers, and for
POST a `URLSearchParams` body given as ordered key/value string pairs. -/
structure TOptions where
  method : Option String := none
  headers : Option (String × String) := none
  body : Option (List (String × String)) := none
  deriving DecidableEq

/-- `Request.prototype.get`. -/
def TBuilder.getOptions (b : TBuilder) : TOptions :=
  { method := some "GET"
    headers := some (jsString b.authorization, jsString b.contentType)
    body := none }

/-- `Request.prototype.post`: the body is
`new URLSearchParams({code, grant_type, redirect_uri})` built from the
builder fields captured by the `Request` constructor; `URLSearchParams`
string-converts each value, so an unset field becomes `"undefined"`. -/
def TBuilder.postOptions (b : TBuilder) : TOptions :=
  { method := some "POST"
    headers := some (jsString b.authorization, jsString b.contentType)
    body := some [("code", jsString b.code),
                  ("grant_type", jsString b.grantType),
                  ("redirect_uri", jsString b.redirectURI)] }

/-- `Builder.prototype.build`: `switch (this.method)` choosing `get()` for
GET, `post()` for POST, and leaving `options = {}` otherwise. -/
def TBuilder.buildOptions (b : TBuilder) : TOptions :=
  if b.method = some "GET" then b.getOptions
  else if b.method = some "POST" then b.postOptions
  else {}

/-- `Builder.prototype.fetch` of this snapshot: the call goes to
`baseURI + path` with the stored options. -/
def TBuilder.fetchURL (b : TBuilder) : String :=
  jsString b.baseURI ++ jsString b.path

end TokenRequest

/-! ## The authorization flow (`src/lib/auth.js`) -/

/-- The alphabet `possible` of `generateRandomString`. -/
def possible : String :=
  "ABCDEFGHIJKLMNOPQRSTUVWXYZabcdefghijklmnopqrstuvwxyz0123456789"

/-- `generateRandomString`: the `crypto.getRandomValues` draw is made an
explicit argument (one byte per output character); each byte `x` selects
`possible[x % possible.length]` and the characters are accumulated by the
`reduce` fold. -/
def generateRandomString (values : List Nat) : String :=
  values.foldl (fun acc x => acc.push (possible.data.getD (x % possible.length) 'A')) ""

/-- The base64 alphabet. -/
def base64Chars : String :=
  "ABCDEFGHIJKLMNOPQRSTUVWXYZabcdefghijklmnopqrstuvwxyz0123456789+/"

def base64Char (n : Nat) : Char :=
  base64Chars.data.getD n 'A'

/-- Standard base64 of a byte sequence, three bytes per four characters
with `=` padding. -/
def base64Chunks : List Nat → String
  | [] => ""
  | [b1] =>
      String.mk [base64Char (b1 / 4), base64Char (b1 % 4 * 16)] ++ "=="
  | [b1, b2] =>
      String.mk [base64Char (b1 / 4), base64Char (b1 % 4 * 16 + b2 / 16),
                 base64Char (b2 % 16 * 4)] ++ "="
  | b1 :: b2 :: b3 :: rest =>
      String.mk [base64Char (b1 / 4), base64Char (b1 % 4 * 16 + b2 / 16),
                 base64Char (b2 % 16 * 4 + b3 / 64), base64Char (b3 % 64)] ++
        base64Chunks rest

/-- UTF-8 bytes of a string, as `Buffer.from` produces. -/
def strUtf8Bytes (s : String) : List Nat :=
  s.data.flatMap (fun c => utf8Bytes c.toNat)

/-- `Buffer.from(s).toString('base64')`. -/
def base64Encode (s : String) : String :=
  base64Chunks (strUtf8Bytes s)

/-- `generateAuthorisationToken`: base64 of `clientID:clientSecret`. -/
def generateAuthorisationToken (clientID clientSecret : String) : String :=
  base64Encode (clientID ++ ":" ++ clientSecret)

/-- The per-client OAuth configuration consumed by the auth flow. -/
structure ClientConfig where
  clientID : String
  clientSecret : String
  redirectURI : String
  responseType : String
  scopes : List String
  deriving DecidableEq

/-- `AuthRequest.js`: the authorization-server base URI. -/
def authBaseURI : String := "https://accounts.spotify.com/"

/-- `WebRequest.js`: the resource-server base URI. -/
def webBaseURI : String := "https://api.spotify.com/v1/"

/-- `AuthRequest.builder()`: a fresh request builder preloaded with the
authorization base URI. -/
def authRequestBuilder : Builder :=
  builder.withURI authBaseURI

/-- `WebRequest.builder()`: a fresh request builder preloaded with the
resource base URI. -/
def webRequestBuilder : Builder :=
  builder.withURI webBaseURI

/-- The query map `getLoginURI` passes to `withQueryParameters`. -/
def loginQueryParameters (cfg : ClientConfig) (state : String) : JMap :=
  [("response_type", .str cfg.responseType),
   ("client_id", .str cfg.clientID),
   ("scope", .str (String.intercalate " " cfg.scopes)),
   ("redirect_uri", .str cfg.redirectURI),
   ("state", .str state)]

/-- `getLoginURI` from `src/lib/auth.js`: generate a state from the 16
fresh random bytes, configure an auth-request builder for the `authorize`
path with the five query parameters, and return its authorization URI.
Pure: no fetch is issued. -/
def getLoginURI (cfg : ClientConfig) (stateBytes : List Nat) : String :=
  let state := generateRandomString stateBytes
  Request.getAuthorizationURI
    ((authRequestBuilder.withPath "authorize").withQueryParameters
      (loginQueryParameters cfg state))

/-- The builder `getRefreshToken` configures before `build().fetch()`. -/
def getRefreshTokenBuilder (cfg : ClientConfig) (refreshToken : String) : Builder :=
  (((authRequestBuilder.withPath "api/token").withContentType
      "application/x-www-form-urlencoded").withQueryParameters
        [("client_id", .str cfg.clientID),
         ("grant_type", .str "authorization_code"),
         ("refresh_token", .str refreshToken)]).withMethod "POST"

/-- The call `getRefreshToken` executes. -/
def getRefreshTokenCall (cfg : ClientConfig) (refreshToken : String) : FetchCall :=
  Request.fetchCall (getRefreshTokenBuilder cfg refreshToken)

/-- The builder `getAccessToken` configures against the token-exchange
request module (`src/lib/requests/Request.js`). -/
def getAccessTokenBuilder (cfg : ClientConfig) (code : String) : TokenRequest.TBuilder :=
  (((((TokenRequest.tbuilder.withURI authBaseURI).withPath "api/token").withAccessToken
      ("Basic " ++ generateAuthorisationToken cfg.clientID cfg.clientSecret)).withContentType
        "application/x-www-form-urlencoded").withQueryParameters
          [("code", .str code),
           ("grant_type", .str "authorization_code"),
           ("redirect_uri", .str cfg.redirectURI)]).withMethod "POST"

/-- The options `getAccessToken`'s `build()` materializes. -/
def getAccessTokenOptions (cfg : ClientConfig) (code : String) : TokenRequest.TOptions :=
  (getAccessTokenBuilder cfg code).buildOptions

/-! ## A bulk endpoint (`src/lib/album.js`) -/

/-- Result of a bulk endpoint: either the structured pre-flight error
object or the network call that was issued. -/
inductive AlbumsResult where
  | error (status message : String)
  | call (c : FetchCall)
  deriving DecidableEq

/-- `getSeveralAlbums` from `src/lib/album.js`: reject more than 20 ids or
an empty id list with a structured `{status, message}` object before any
network activity; otherwise join the ids and issue the GET. -/
def getSeveralAlbums (accessToken : String) (ids : List String) (market : String) :
    AlbumsResult :=
  if ids.length > 20 then
    .error "400" "You exceeded the maximum (20) number of albums allowed."
  else if ids.length < 1 then
    .error "400" "Album ID(s) cannot be empty."
  else
    .call (Request.fetchCall
      (((((webRequestBuilder.withPath "albums").withAccessToken
          ("Bearer " ++ accessToken)).withContentType "application/json").withMethod
            "GET").withQueryParameters
              [("ids", .str (String.intercalate "," ids)),
               ("market", .str market)]))

/-! ## Spec-side definitions

Used only to state refinement claims; written from the specification text,
to be compared with the source-derived functions above. -/

/-- From the spec: drop the null-valued keys of a map entirely. -/
def dropNullValued (m : JMap) : JMap :=
  m.filter (fun kv => decide (kv.2 ≠ JVal.null))

/-- From the spec: the query string obtained by omitting keys whose value
is an empty or whitespace-only string, dropping null-valued keys entirely,
and percent-encoding the rest as a single query string. -/
def specSanitizedQueryString (m : JMap) : String :=
  qsStringify false (dropNullValued (filterEmptyString m))

/-! ## Concrete example inputs used by witnesses and counterexamples -/

/-- A concrete descriptor with an empty-string, a scalar, and a null query
value, and the same descriptor without a query map. -/
def c1Builder : Builder :=
  ((builder.withURI "https://api.example.com/v1/").withPath "albums/123").withQueryParameters
    [("market", JVal.str ""), ("limit", JVal.num 20), ("country", JVal.null)]

def c1BuilderNoQuery : Builder :=
  (builder.withURI "https://api.example.com/v1/").withPath "albums/123"

/-- A descriptor whose query values are all empty or whitespace-only. -/
def c10Builder : Builder :=
  ((builder.withURI "https://api.spotify.com/v1/").withPath "search").withQueryParameters
    [("market", JVal.str ""), ("locale", JVal.str "  ")]

def c10BuilderNoQuery : Builder :=
  (builder.withURI "https://api.spotify.com/v1/").withPath "search"

/-- The client configuration used by the C3 witness. -/
def c3Config : ClientConfig :=
  { clientID := "myclient", clientSecret := "mysecret",
    redirectURI := "https://app.example/cb", responseType := "code", scopes := [] }

/-- The configuration and fresh-randomness draw used to evaluate the login
URI construction on a concrete input. -/
def c4Config : ClientConfig :=
  { clientID := "myclient", clientSecret := "mysecret",
    redirectURI := "https://app.example/cb", responseType := "code",
    scopes := ["user-read-private", "user-read-email"] }

/-- The single-pass `qs` encoding of the C4 example's login query map. -/
def c4QueryString : String :=
  "response_type=code&client_id=myclient&scope=user-read-private%20user-read-email&redirect_uri=https%3A%2F%2Fapp.example%2Fcb&state=AAAAAAAAAAAAAAAA"
/-- The exact C5 scenario descriptor: base `https://api.example.com/v1/`,
path `me/tracks`, method PUT, JSON content type, body map `ids: a,b,c`. -/
def c5Builder : Builder :=
  ((((builder.withURI "https://api.example.com/v1/").withPath "me/tracks").withMethod
      "PUT").withContentType "application/json").withBodyParameters
        [("ids", JVal.str "a,b,c")]
/-- Two descriptors built from two separately created builder instances:
each chain starts from its own fresh `builder()` accumulator. -/
def twoDescriptors (t1 t2 : String) : FetchCall × FetchCall :=
  (Request.fetchCall ((builder.withPath "one").withAccessToken t1),
   Request.fetchCall ((builder.withPath "two").withAccessToken t2))

/-! ## Helper lemmas -/

/-- Encoding with `skipNulls` is the same as dropping the null-valued keys
first and encoding with the default null handling: no null key ever
degenerates to an empty `key=` fragment under `skipNulls`. -/
theorem qsParts_skipNulls (m : JMap) :
    qsParts true m = qsParts false (dropNullValued m) := by
  induction m with
  | nil => rfl
  | cons kv rest ih =>
      obtain ⟨k, v⟩ := kv
      cases v <;>
        simp [qsParts, dropNullValued, qsPairs, List.flatMap_cons, ih,
          List.filter_cons] <;>
        simpa [qsParts, dropNullValued] using ih

theorem qsStringify_skipNulls (m : JMap) :
    qsStringify true m = qsStringify false (dropNullValued m) := by
  unfold qsStringify
  rw [qsParts_skipNulls]

theorem filterEmptyString_idem (m : JMap) :
    filterEmptyString (filterEmptyString m) = filterEmptyString m := by
  unfold filterEmptyString
  rw [List.filter_filter]
  simp

theorem mem_filterEmptyString (m : JMap) (k : String) (v : JVal) :
    (k, v) ∈ filterEmptyString m ↔ ((k, v) ∈ m ∧ isEmptyStringVal v = false) := by
  unfold filterEmptyString
  simp [List.mem_filter]

/-! ## Claim theorems -/

/-- C1: for every built descriptor whose query map is present, the derived
final URL is `baseURI + path + "?" +` the percent-encoded sanitized query
map, with empty/whitespace-string-valued keys omitted entirely and
null-valued keys dropped entirely rather than encoded as empty; when the
query map is entirely absent, the URL is `baseURI + path` with no `?`. -/
theorem getFullURI_contract (b : Builder) :
    (∀ qp, b.queryParameters = some qp →
       Request.getFullURI b =
         jsString b.baseURI ++ jsString b.path ++ "?" ++ specSanitizedQueryString qp) ∧
    (b.queryParameters = none →
       Request.getFullURI b = jsString b.baseURI ++ jsString b.path) := by
  constructor
  · intro qp hqp
    unfold Request.getFullURI specSanitizedQueryString
    rw [hqp]
    dsimp only
    rw [qsStringify_skipNulls]
    simp [String.append_assoc]
  · intro h
    unfold Request.getFullURI
    rw [h]
    simp

theorem getFullURI_contract_witness :
    Request.getFullURI c1Builder = "https://api.example.com/v1/albums/123?limit=20" ∧
    Request.getFullURI c1BuilderNoQuery = "https://api.example.com/v1/albums/123" := by
  constructor
  · rw [(getFullURI_contract c1Builder).1
      [("market", JVal.str ""), ("limit", JVal.num 20), ("country", JVal.null)] rfl]
    rfl
  · rw [(getFullURI_contract c1BuilderNoQuery).2 rfl]
    rfl

/-- C2: the parameter sanitizer keeps exactly the entries whose value is
not an empty or whitespace-only string, unchanged (null, number, boolean
and array values pass through), and it is idempotent. -/
theorem filterEmptyString_contract (m : JMap) :
    (∀ k v, (k, v) ∈ filterEmptyString m ↔ ((k, v) ∈ m ∧ isEmptyStringVal v = false)) ∧
    filterEmptyString (filterEmptyString m) = filterEmptyString m :=
  ⟨fun k v => mem_filterEmptyString m k v, filterEmptyString_idem m⟩

theorem filterEmptyString_contract_witness :
    filterEmptyString (filterEmptyString
        [("market", JVal.str " "), ("limit", JVal.num 20), ("opt", JVal.null)]) =
      filterEmptyString [("market", JVal.str " "), ("limit", JVal.num 20), ("opt", JVal.null)] ∧
    ("limit", JVal.num 20) ∈
      filterEmptyString [("market", JVal.str " "), ("limit", JVal.num 20), ("opt", JVal.null)] ∧
    ("market", JVal.str " ") ∉
      filterEmptyString [("market", JVal.str " "), ("limit", JVal.num 20), ("opt", JVal.null)] := by
  refine ⟨(filterEmptyString_contract _).2, ?_, ?_⟩
  · exact ((filterEmptyString_contract
      [("market", JVal.str " "), ("limit", JVal.num 20), ("opt", JVal.null)]).1
        "limit" (JVal.num 20)).mpr ⟨by decide, by decide⟩
  · intro hmem
    have h := ((filterEmptyString_contract
      [("market", JVal.str " "), ("limit", JVal.num 20), ("opt", JVal.null)]).1
        "market" (JVal.str " ")).mp hmem
    exact absurd h.2 (by decide)

/-- C10: when the query map is present but every value is an empty or
whitespace-only string, sanitization empties the map yet the `?` is still
appended, so the derived URL is `baseURI + path + "?"` with a bare trailing
`?`; when the map is entirely absent, nothing is appended. -/
theorem getFullURI_bareQuestionMark (b : Builder) :
    (∀ qp, b.queryParameters = some qp →
       (∀ kv ∈ qp, isEmptyStringVal kv.2 = true) →
       Request.getFullURI b = jsString b.baseURI ++ jsString b.path ++ "?") ∧
    (b.queryParameters = none →
       Request.getFullURI b = jsString b.baseURI ++ jsString b.path) := by
  constructor
  · intro qp hqp hall
    have hfilter : filterEmptyString qp = [] := by
      unfold filterEmptyString
      rw [List.filter_eq_nil_iff]
      intro kv hkv
      simp [hall kv hkv]
    unfold Request.getFullURI
    rw [hqp]
    dsimp only
    rw [hfilter]
    rfl
  · intro h
    unfold Request.getFullURI
    rw [h]
    simp

/-- C3: for every token-exchange builder with method POST and form-encoded
content type, the built options carry a body whose fields are exactly
`code`, `grant_type`, `redirect_uri`, independent of whatever parameter map
was set on the builder; in particular the authorization-code exchange's
built request has exactly those body fields. -/
theorem tokenPost_body_fields (b : TokenRequest.TBuilder) (cfg : ClientConfig) (code : String)
    (hm : b.method = some "POST")
    (_hc : b.contentType = some "application/x-www-form-urlencoded") :
    (b.buildOptions.body.map (List.map Prod.fst) =
       some ["code", "grant_type", "redirect_uri"]) ∧
    (∀ qp, TokenRequest.TBuilder.buildOptions { b with queryParameters := qp } =
       b.buildOptions) ∧
    ((getAccessTokenOptions cfg code).body.map (List.map Prod.fst) =
       some ["code", "grant_type", "redirect_uri"]) := by
  have hbuild : b.buildOptions = b.postOptions := by
    unfold TokenRequest.TBuilder.buildOptions
    rw [hm, if_neg (by decide), if_pos rfl]
  refine ⟨?_, ?_, rfl⟩
  · rw [hbuild]
    rfl
  · intro qp
    rfl

theorem tokenPost_body_fields_witness :
    (getAccessTokenBuilder c3Config "c0").buildOptions.body.map (List.map Prod.fst) =
      some ["code", "grant_type", "redirect_uri"] :=
  (tokenPost_body_fields (getAccessTokenBuilder c3Config "c0") c3Config "c0" rfl rfl).1

set_option maxRecDepth 8192 in
/-- C4: the claim says the login URI carries the five query parameters each
encoded exactly once; on the code, `getAuthorizationURI` returns
`getFullURI() + qs.stringify(queryParameters)` while `getFullURI` has
already appended `? + `the same encoded query, so the encoded query string
appears twice (the second copy without any separator) and the claimed URI
is not the one returned. -/
theorem getLoginURI_query_duplicated :
    getLoginURI c4Config (List.replicate 16 0) =
      "https://accounts.spotify.com/authorize?" ++ c4QueryString ++ c4QueryString ∧
    getLoginURI c4Config (List.replicate 16 0) ≠
      "https://accounts.spotify.com/authorize?" ++ c4QueryString := by
  refine ⟨rfl, ?_⟩
  decide

/-- C5: the Content-Type header is `application/json` as claimed, but the
request body is the sanitized parameter object itself, which the fetch
transport string-converts to `[object Object]` — it is never the JSON text
`\x7b"ids":"a,b,c"\x7d` the claim (and the spec scenario) describe. -/
theorem fetch_body_is_not_json :
    (Request.fetchCall c5Builder).contentType = "application/json" ∧
    (Request.fetchCall c5Builder).body = some [("ids", JVal.str "a,b,c")] ∧
    wireBody (Request.fetchCall c5Builder).body = some "[object Object]" ∧
    wireBody (Request.fetchCall c5Builder).body ≠ some "\x7b\"ids\":\"a,b,c\"\x7d" := by
  refine ⟨rfl, rfl, rfl, ?_⟩
  decide

/-- C6: the refresh-token exchange configures a POST to `api/token` on the
authorization base URI with form-encoded content type and exactly the
parameters `client_id`, `grant_type=authorization_code`, `refresh_token`,
and the executed call is a POST. -/
theorem getRefreshToken_exchange (cfg : ClientConfig) (rt : String) :
    (getRefreshTokenBuilder cfg rt).baseURI = some "https://accounts.spotify.com/" ∧
    (getRefreshTokenBuilder cfg rt).path = some "api/token" ∧
    (getRefreshTokenBuilder cfg rt).contentType =
      some "application/x-www-form-urlencoded" ∧
    (getRefreshTokenBuilder cfg rt).method = some "POST" ∧
    (getRefreshTokenBuilder cfg rt).queryParameters =
      some [("client_id", JVal.str cfg.clientID),
            ("grant_type", JVal.str "authorization_code"),
            ("refresh_token", JVal.str rt)] ∧
    (getRefreshTokenCall cfg rt).method = "POST" :=
  ⟨rfl, rfl, rfl, rfl, rfl, rfl⟩

/-- C7: with more than 20 ids or fewer than 1, `getSeveralAlbums` returns
the structured `{status, message}` object and issues no network call (the
`error` result carries no `FetchCall`); with 1 to 20 ids it issues the
call. -/
theorem getSeveralAlbums_preflight (accessToken : String) (ids : List String)
    (market : String) :
    (ids.length > 20 ∨ ids.length < 1 →
       ∃ s m, getSeveralAlbums accessToken ids market = .error s m) ∧
    (1 ≤ ids.length ∧ ids.length ≤ 20 →
       ∃ c, getSeveralAlbums accessToken ids market = .call c) := by
  constructor
  · rintro (h | h)
    · unfold getSeveralAlbums
      rw [if_pos h]
      exact ⟨_, _, rfl⟩
    · unfold getSeveralAlbums
      rw [if_neg (by omega), if_pos h]
      exact ⟨_, _, rfl⟩
  · rintro ⟨h1, h2⟩
    unfold getSeveralAlbums
    rw [if_neg (by omega), if_neg (by omega)]
    exact ⟨_, rfl⟩

theorem getSeveralAlbums_preflight_witness :
    (∃ s m, getSeveralAlbums "tok" (List.replicate 21 "x") "US" = .error s m) ∧
    (∃ s m, getSeveralAlbums "tok" [] "US" = .error s m) ∧
    (∃ c, getSeveralAlbums "tok" ["a1"] "US" = .call c) :=
  ⟨(getSeveralAlbums_preflight "tok" (List.replicate 21 "x") "US").1 (by decide),
   (getSeveralAlbums_preflight "tok" [] "US").1 (by decide),
   (getSeveralAlbums_preflight "tok" ["a1"] "US").2 (by decide)⟩

/-- Unfolding the `reduce` accumulation of `generateRandomString`: the
characters are the per-byte alphabet picks, appended in draw order. -/
theorem generateRandomString_foldl (l : List Nat) (s : String) :
    l.foldl (fun acc x => acc.push (possible.data.getD (x % possible.length) 'A')) s =
      ⟨s.data ++ l.map (fun x => possible.data.getD (x % possible.length) 'A')⟩ := by
  induction l generalizing s with
  | nil => simp
  | cons x xs ih =>
      rw [List.foldl_cons, ih]
      simp [String.push, List.append_assoc]

theorem generateRandomString_data (bytes : List Nat) :
    (generateRandomString bytes).data =
      bytes.map (fun x => possible.data.getD (x % possible.length) 'A') := by
  unfold generateRandomString
  rw [generateRandomString_foldl]
  rfl

/-- Every character of the `possible` alphabet is alphanumeric. -/
theorem possible_getD_alnum : ∀ i < 62, (possible.data.getD i 'A').isAlphanum = true := by
  decide

/-- The 62 characters of the `possible` alphabet are pairwise distinct. -/
theorem possible_getD_inj :
    ∀ i < 62, ∀ j < 62,
      possible.data.getD i 'A' = possible.data.getD j 'A' → i = j := by
  decide

theorem randChar_mod_inj (x y : Nat)
    (h : possible.data.getD (x % possible.length) 'A' =
         possible.data.getD (y % possible.length) 'A') :
    x % 62 = y % 62 := by
  have hlen : possible.length = 62 := rfl
  rw [hlen] at h
  exact possible_getD_inj (x % 62) (Nat.mod_lt _ (by decide)) (y % 62)
    (Nat.mod_lt _ (by decide)) h

theorem map_randChar_inj (b b' : List Nat)
    (h : b.map (fun x => possible.data.getD (x % possible.length) 'A') =
         b'.map (fun x => possible.data.getD (x % possible.length) 'A')) :
    b.map (· % 62) = b'.map (· % 62) := by
  induction b generalizing b' with
  | nil =>
      cases b' with
      | nil => rfl
      | cons y ys => simp at h
  | cons x xs ih =>
      cases b' with
      | nil => simp at h
      | cons y ys =>
          simp only [List.map_cons, List.cons.injEq] at h ⊢
          exact ⟨randChar_mod_inj x y h.1, ih ys h.2⟩

/-- C9 counterexample: two distinct fresh 16-byte draws (all zeros and all
62s) produce the same state value, so two login-URI generations need not
produce two different state values even though each draws fresh random
bytes. -/
theorem generateRandomString_collision :
    (List.replicate 16 0 : List Nat) ≠ List.replicate 16 62 ∧
    generateRandomString (List.replicate 16 0) =
      generateRandomString (List.replicate 16 62) ∧
    (generateRandomString (List.replicate 16 0)).length = 16 :=
  ⟨by decide, rfl, rfl⟩

/-- C9 amended: each login-URI generation derives its state from its own
fresh 16-byte draw; the state has exactly the draw's length (16 in
`getLoginURI`) and consists only of alphanumeric characters, and two calls
return different values whenever their draws differ at some position modulo
62 — but equal picks, possible under true randomness, give equal values, so
"always different" does not hold unconditionally. -/
theorem generateRandomString_spec (bytes : List Nat) :
    (generateRandomString bytes).length = bytes.length ∧
    (∀ c ∈ (generateRandomString bytes).data, c.isAlphanum = true) ∧
    (∀ bytes' : List Nat, bytes.map (· % 62) ≠ bytes'.map (· % 62) →
       generateRandomString bytes ≠ generateRandomString bytes') := by
  refine ⟨?_, ?_, ?_⟩
  · show (generateRandomString bytes).data.length = bytes.length
    rw [generateRandomString_data, List.length_map]
  · intro c hc
    rw [generateRandomString_data] at hc
    obtain ⟨x, hx, rfl⟩ := List.mem_map.mp hc
    have hlen : possible.length = 62 := rfl
    rw [hlen]
    exact possible_getD_alnum (x % 62) (Nat.mod_lt _ (by decide))
  · intro bytes' hne heq
    apply hne
    apply map_randChar_inj
    have hdata := congrArg String.data heq
    rwa [generateRandomString_data, generateRandomString_data] at hdata

theorem generateRandomString_spec_witness :
    (generateRandomString (List.replicate 16 0)).length = 16 ∧
    generateRandomString (List.replicate 16 0) ≠
      generateRandomString (List.replicate 16 1) := by
  constructor
  · rw [(generateRandomString_spec (List.replicate 16 0)).1]
    rfl
  · exact (generateRandomString_spec (List.replicate 16 0)).2.2
      (List.replicate 16 1) (by decide)

/-- C8: a descriptor built with `.withAccessToken("Bearer T")` derives the
header value `Bearer T` exactly; the first descriptor is unchanged whatever
token the separately created second builder receives (each `builder()`
call returns a fresh accumulator, so no builder state is shared across
instances), and a different token on the second instance yields a
different header there. -/
theorem builderInstances_independent (t t' : String) :
    ((twoDescriptors ("Bearer " ++ t) t').1.authorization = "Bearer " ++ t) ∧
    (∀ t'', (twoDescriptors ("Bearer " ++ t) t'').1 = (twoDescriptors ("Bearer " ++ t) t').1) ∧
    ((twoDescriptors ("Bearer " ++ t) t').2.authorization = t') :=
  ⟨rfl, fun _ => rfl, rfl⟩

theorem getFullURI_bareQuestionMark_witness :
    Request.getFullURI c10Builder = "https://api.spotify.com/v1/search?" ∧
    Request.getFullURI c10BuilderNoQuery = "https://api.spotify.com/v1/search" := by
  constructor
  · rw [(getFullURI_bareQuestionMark c10Builder).1
      [("market", JVal.str ""), ("locale", JVal.str "  ")] rfl (by decide)]
    rfl
  · rw [(getFullURI_bareQuestionMark c10BuilderNoQuery).2 rfl]
    rfl

end Snodeify
